import Mathlib

/-!
Shallow embedding of the VerifyAi analysis core.

The embedding covers the four components of the core pipeline:
the Signal Analyzer (`app/agents/forensic_agent.py`), the
Cross-Reference Aggregator (`app/agents/cross_reference.py`), the
Adversarial Critique Engine (`app/agents/red_team_agent.py`) and the
Orchestrator's final-verdict rule (`app/agents/orchestrator.py`).

Modelling conventions:
- Python floats are modelled as rationals (ℚ); Python's `round(x, n)`
  (round-half-to-even) is modelled exactly by `pyRound`.
- Image decoding (PIL `Image.open`) is the abstracted boundary: a
  decodable image is an `ImgView` carrying the attributes the code
  reads (width, height, format, mode, EXIF tags, ELA statistics,
  first-quantization-table standard deviation); an undecodable input
  is `none`.  `try/except` around decoding becomes a `match` on the
  `Option`.
- Dictionaries keyed by strings are association lists; `dict.get`
  with a default becomes lookup-with-default.
- Stateful code (the class-level `RedTeamAgent.learning_log`) is
  modelled by explicit state passing: `redTeamChallenge` takes the
  current log and returns the new log alongside its result.
-/

namespace VerifyAi

/-- Severity of an anomaly or challenge: exactly `{low, medium, high}`. -/
inductive Severity
  | low
  | medium
  | high
  deriving Repr, DecidableEq

/-- Verdict values used by the aggregator and the orchestrator. -/
inductive Verdict
  | authentic
  | forged
  | inconclusive
  deriving Repr, DecidableEq

/-- Threat level reported by the critique engine. -/
inductive ThreatLevel
  | low
  | medium
  | high
  deriving Repr, DecidableEq

/-- Round-half-to-even to an integer, the semantics of Python's `round`
on exact values. -/
def roundHalfEven (q : ℚ) : ℤ :=
  let n := ⌊q⌋
  let r := q - n
  if r < 1/2 then n
  else if 1/2 < r then n + 1
  else if n % 2 = 0 then n else n + 1

/-- Python's `round(q, d)` on exact rational values. -/
def pyRound (d : ℕ) (q : ℚ) : ℚ :=
  (roundHalfEven (q * 10 ^ d) : ℚ) / 10 ^ d

/-- Python's substring test `sub in s` on character lists. -/
def isSubOf (sub : List Char) : List Char → Bool
  | [] => sub.isEmpty
  | c :: tl => sub.isPrefixOf (c :: tl) || isSubOf sub tl

/-- Python's substring test `sub in s` on strings. -/
def strIn (sub s : String) : Bool := isSubOf sub.data s.data

/-- Python's `"{:.1f}".format` / `round(q, 1)` rendering (used only in
human-readable message strings). -/
def fmtFixed1 (q : ℚ) : String :=
  let n := roundHalfEven (q * 10)
  toString (n / 10) ++ "." ++ toString ((n % 10).natAbs)

/-- Python's `"{:.0%}".format` rendering (message strings only). -/
def fmtPct0 (q : ℚ) : String := toString (roundHalfEven (q * 100)) ++ "%"

/-- Python's `"{:.1%}".format` rendering (message strings only). -/
def fmtPct1 (q : ℚ) : String := fmtFixed1 (q * 100) ++ "%"

/-- Rendering of `round(q, 3)` inside message strings. -/
def fmtFixed3 (q : ℚ) : String :=
  let n := roundHalfEven (q * 1000)
  let frac := (n % 1000).natAbs
  let fracStr :=
    if frac < 10 then "00" ++ toString frac
    else if frac < 100 then "0" ++ toString frac
    else toString frac
  toString (n / 1000) ++ "." ++ fracStr

/-- Python's `np.mean` of a rational list (regions are always non-empty
in the pipeline; the empty case is never reached). -/
def qMean (l : List ℚ) : ℚ := l.sum / l.length

/-- Python's `max` over a non-empty list of rationals (0 on empty,
unreached). -/
def qMax : List ℚ → ℚ
  | [] => 0
  | x :: xs => xs.foldl max x

/-- Python's `min` over a non-empty list of rationals (0 on empty,
unreached). -/
def qMin : List ℚ → ℚ
  | [] => 0
  | x :: xs => xs.foldl min x

/-- An anomaly record, as built by `ForensicTechnicalAgent._anomaly`:
type tag, description, severity, optional percentage location. -/
structure Anomaly where
  typ : String
  description : String
  severity : Severity
  location : Option (Int × Int) := none
  deriving Repr, DecidableEq

/-- One opinion record — the dict produced by an agent's `analyze`
(`agent_type`, `confidence_score`, `anomalies.items`); the two findings
fields the aggregator reads from an `ai_generation` opinion are lifted
to explicit fields. -/
structure OpinionRecord where
  agent_type : String
  confidence_score : ℚ
  anomalies : List Anomaly
  isAiGenerated : Bool := false
  likelyTool : Option String := none
  deriving Repr, DecidableEq

/-- Per-region mean of the ELA difference map (one entry of the
`region_means` list built over the 4×4 grid). -/
structure RegionMean where
  row : ℕ
  col : ℕ
  mean : ℚ
  deriving Repr, DecidableEq

/-- The ELA statistics the code computes from the pixel array; `none`
at the use site models the `except` branch of `_analyze_ela`. -/
structure ElaView where
  meanError : ℚ
  maxError : ℚ
  stdError : ℚ
  regionMeans : List RegionMean
  deriving Repr, DecidableEq

/-- A decoded image: the PIL attributes read by the core.  `quantStd`
is the standard deviation of the first quantization table when the
JPEG exposes one (`img.quantization` truthy), else `none`. -/
structure ImgView where
  width : ℕ
  height : ℕ
  format : Option String := none
  mode : String := "RGB"
  exifTags : List (String × String) := []
  ela : Option ElaView := none
  quantStd : Option ℚ := none
  deriving Repr, DecidableEq

/-- Python `exif_data.get(key, "")`. -/
def exifGet (tags : List (String × String)) (key : String) : String :=
  (tags.lookup key).getD ""

/-- The fixed editing-tool vocabulary of `_analyze_exif`. -/
def editingTools : List String :=
  ["photoshop", "gimp", "lightroom", "snapseed", "picsart", "canva"]

/-- Embedding of `ForensicTechnicalAgent._analyze_exif` (anomaly part;
the `findings` sub-object is not consumed by any later stage of the
core and is omitted). -/
def analyzeExif (tags : List (String × String)) : List Anomaly :=
  if tags.isEmpty then
    [{ typ := "מטאדטה"
       description := "הקובץ נעדר מטאדטה EXIF לחלוטין. ייתכן שהמטאדטה הוסרה בכוונה כדי להסתיר את מקור התמונה."
       severity := .medium
       location := some (90, 10) }]
  else
    let software := exifGet tags "Software"
    let toolAnoms :=
      if software ≠ "" ∧ editingTools.any (fun t => strIn t.toLower software.toLower) then
        [{ typ := "תוכנת עריכה"
           description := "זוהתה תוכנת עריכה במטאדטה: " ++ software ++ ". התמונה עברה עיבוד."
           severity := .medium
           location := some (85, 8) }]
      else []
    let dateOriginal := exifGet tags "DateTimeOriginal"
    let dateModified := exifGet tags "DateTime"
    let dateAnoms :=
      if dateOriginal ≠ "" ∧ dateModified ≠ "" ∧ dateOriginal ≠ dateModified then
        [{ typ := "תאריכים"
           description := "פער בין תאריך הצילום (" ++ dateOriginal ++ ") לתאריך העריכה (" ++ dateModified ++ ")."
           severity := .high
           location := some (80, 15) }]
      else []
    toolAnoms ++ dateAnoms

/-- Region scan of `_analyze_ela`: flag every region whose mean exceeds
both 2.5× the grid-wide mean and the absolute floor 15. -/
def elaRegionAnomalies (overallMean : ℚ) (rs : List RegionMean) : List Anomaly :=
  rs.filterMap (fun r =>
    if r.mean > overallMean * (5/2) ∧ r.mean > 15 then
      some { typ := "ELA"
             description := "חריגה ברמת שגיאת ELA באזור (" ++ toString (r.row + 1) ++ "," ++ toString (r.col + 1)
               ++ "). עוצמת השגיאה גבוהה פי " ++ fmtFixed1 (r.mean / overallMean)
               ++ " מהממוצע, המעידה על עריכה או הדבקה באזור זה."
             severity := .high
             location := some ((r.col : Int) * 25 + 12, (r.row : Int) * 25 + 12) }
    else none)

/-- Embedding of `ForensicTechnicalAgent._analyze_ela` over the
abstract ELA statistics; `none` models the swallowed exception. -/
def analyzeEla : Option ElaView → List Anomaly
  | none => []
  | some e =>
    let overallMean := qMean (e.regionMeans.map (·.mean))
    let regionAnoms := elaRegionAnomalies overallMean e.regionMeans
    let globalAnoms :=
      if e.stdError > 20 then
        [{ typ := "ELA כללי"
           description := "שונות גבוהה ברמת ה-ELA (" ++ fmtFixed1 e.stdError
             ++ "). מעידה על רמות דחיסה שונות בחלקים שונים של התמונה."
           severity := .medium
           location := some (50, 50) }]
      else []
    regionAnoms ++ globalAnoms

/-- Embedding of `ForensicTechnicalAgent._analyze_compression`. -/
def analyzeCompression (fileSize : ℕ) (img : ImgView) : List Anomaly :=
  let qAnoms :=
    if img.format = some "JPEG" then
      match img.quantStd with
      | some qStd =>
        if qStd > 25 then
          [{ typ := "דחיסה כפולה"
             description := "נמצאו סימנים לדחיסת JPEG כפולה (double compression). זה עלול להעיד על שמירה מחדש לאחר עריכה."
             severity := .medium
             location := some (50, 85) }]
        else []
      | none => []
    else []
  let pixels := img.width * img.height
  let bppAnoms :=
    if pixels > 0 then
      let bpp : ℚ := (fileSize : ℚ) / (pixels : ℚ)
      if bpp < 1/10 ∧ img.format = some "JPEG" then
        [{ typ := "דחיסה"
           description := "יחס דחיסה חריג (" ++ fmtFixed3 bpp
             ++ " bytes/pixel). התמונה דחוסה מאוד ביחס למימדיה, ייתכן שנשמרה מספר פעמים."
           severity := .low
           location := some (15, 90) }]
      else []
    else []
  qAnoms ++ bppAnoms

/-- The fixed canonical generative-model output sizes of
`_analyze_dimensions`. -/
def aiDimensions : List (ℕ × ℕ) :=
  [(512, 512), (768, 768), (1024, 1024), (1024, 1792), (1792, 1024),
   (512, 768), (768, 512), (1024, 768), (768, 1024)]

/-- Embedding of `ForensicTechnicalAgent._analyze_dimensions`. -/
def analyzeDimensions (img : ImgView) : List Anomaly :=
  if aiDimensions.contains (img.width, img.height) then
    [{ typ := "מימדים"
       description := "מימדי התמונה (" ++ toString img.width ++ "x" ++ toString img.height
         ++ ") תואמים לפלט אופייני של מודלי AI (כגון DALL-E, Midjourney, Stable Diffusion)."
       severity := .medium
       location := some (10, 10) }]
  else []

/-- Per-severity confidence penalty (`severity_scores`). -/
def severityPenalty : Severity → ℚ
  | .high => 15/100
  | .medium => 8/100
  | .low => 3/100

/-- Embedding of `ForensicTechnicalAgent._calculate_confidence`. -/
def calculateConfidence (anomalies : List Anomaly) : ℚ :=
  if anomalies.isEmpty then 92/100
  else
    let totalPenalty := (anomalies.map (fun a => severityPenalty a.severity)).sum
    max (15/100) (pyRound 2 (92/100 - totalPenalty))

/-- The degraded-record anomaly returned when the file cannot be
opened as an image. -/
def formatAnomaly : Anomaly :=
  { typ := "format"
    description := "לא ניתן לפתוח את הקובץ כתמונה"
    severity := .medium }

/-- Embedding of `ForensicTechnicalAgent.analyze`: `none` models the
`except` branch of `Image.open`, anything else runs the four
sub-analyses in order and scores the collected anomalies. -/
def forensicAnalyze (fileSize : ℕ) (decoded : Option ImgView) : OpinionRecord :=
  match decoded with
  | none =>
    { agent_type := "forensic_technical"
      confidence_score := 1/2
      anomalies := [formatAnomaly] }
  | some img =>
    let anomalies := analyzeExif img.exifTags ++ analyzeEla img.ela
      ++ analyzeCompression fileSize img ++ analyzeDimensions img
    { agent_type := "forensic_technical"
      confidence_score := calculateConfidence anomalies
      anomalies := anomalies }

/-- Severity counts reported in `anomaly_summary`. -/
structure AnomalySummary where
  total : ℕ
  high : ℕ
  medium : ℕ
  low : ℕ
  deriving Repr, DecidableEq

/-- The aggregator's result (`CrossReferenceEngine.analyze` return
dict).  The empty-input branch returns no `anomaly_summary` key,
modelled by `none`. -/
structure CrossRefResult where
  combined_score : ℚ
  final_verdict : Verdict
  reasoning : String
  anomaly_summary : Option AnomalySummary := none
  deriving Repr, DecidableEq

/-- The fixed per-source-kind weight table with its 0.1 default
(`CrossReferenceEngine.WEIGHTS` plus `dict.get(agent_type, 0.1)`). -/
def WEIGHTS (agent_type : String) : ℚ :=
  if agent_type = "forensic_technical" then 35/100
  else if agent_type = "physical" then 25/100
  else if agent_type = "contextual" then 20/100
  else if agent_type = "ai_generation" then 20/100
  else 1/10

/-- Sum of the weights of an opinion list (`total_weight`). -/
def totalWeight (rs : List OpinionRecord) : ℚ :=
  (rs.map (fun r => WEIGHTS r.agent_type)).sum

/-- Weighted sum of confidences (`weighted_sum`). -/
def weightedSum (rs : List OpinionRecord) : ℚ :=
  (rs.map (fun r => r.confidence_score * WEIGHTS r.agent_type)).sum

/-- The aggregator's combined score: rounded weighted mean, 0.5 when
the total weight is zero. -/
def combinedScore (rs : List OpinionRecord) : ℚ :=
  if totalWeight rs > 0 then pyRound 3 (weightedSum rs / totalWeight rs) else 1/2

/-- All anomalies across all opinions (`all_anomalies`). -/
def allAnomalies (rs : List OpinionRecord) : List Anomaly :=
  (rs.map (fun r => r.anomalies)).flatten

/-- Count of high-severity anomalies across all opinions. -/
def countHighAnoms (rs : List OpinionRecord) : ℕ :=
  (allAnomalies rs).countP (fun a => a.severity == .high)

/-- Count of medium-severity anomalies across all opinions. -/
def countMediumAnoms (rs : List OpinionRecord) : ℕ :=
  (allAnomalies rs).countP (fun a => a.severity == .medium)

/-- Hebrew display name of an agent kind (`agent_names.get(a, a)`). -/
def agentDisplayName (a : String) : String :=
  if a = "forensic_technical" then "פורנזי-טכני"
  else if a = "physical" then "פיזיקלי"
  else if a = "contextual" then "הקשרי"
  else if a = "ai_generation" then "זיהוי AI"
  else a

/-- The reasoning text assembled for a non-empty opinion set. -/
def crossRefReasoning (rs : List OpinionRecord) (score : ℚ) (verdict : Verdict)
    (highCount mediumCount totalCount : ℕ) : String :=
  let p1 := "הופעלו " ++ toString rs.length ++ " סוכני ניתוח. ציון ביטחון משוקלל: "
    ++ fmtPct1 score ++ "."
  let p2 := "זוהו " ++ toString totalCount ++ " אנומליות: " ++ toString highCount
    ++ " בחומרה גבוהה, " ++ toString mediumCount ++ " בחומרה בינונית."
  let lowConfidenceAgents := (rs.filter (fun r => r.confidence_score < 6/10)).map (·.agent_type)
  let p3 :=
    if lowConfidenceAgents.isEmpty then []
    else ["ציון נמוך בסוכנים: " ++ String.intercalate ", " (lowConfidenceAgents.map agentDisplayName) ++ "."]
  let p4 := (rs.filter (fun r => r.agent_type == "ai_generation" && r.isAiGenerated)).map
    (fun r => "התמונה זוהתה כנוצרת על ידי AI (כלי: " ++ r.likelyTool.getD "לא ידוע" ++ ").")
  let p5 := if verdict = .inconclusive then ["מומלץ לשלב מומחה אנושי (HITL) לאימות הממצאים."] else []
  String.intercalate " " ([p1, p2] ++ p3 ++ p4 ++ p5)

/-- Embedding of `CrossReferenceEngine.analyze`. -/
def crossRefAnalyze (rs : List OpinionRecord) : CrossRefResult :=
  if rs.isEmpty then
    { combined_score := 1/2
      final_verdict := .inconclusive
      reasoning := "לא התקבלו ממצאים מסוכנים."
      anomaly_summary := none }
  else
    let score := combinedScore rs
    let highCount := countHighAnoms rs
    let mediumCount := countMediumAnoms rs
    let totalCount := (allAnomalies rs).length
    let verdict : Verdict :=
      if highCount ≥ 3 ∨ (highCount ≥ 2 ∧ score < 1/2) then .forged
      else if score ≥ 75/100 ∧ highCount = 0 then .authentic
      else .inconclusive
    { combined_score := score
      final_verdict := verdict
      reasoning := crossRefReasoning rs score verdict highCount mediumCount totalCount
      anomaly_summary := some
        { total := totalCount
          high := highCount
          medium := mediumCount
          low := totalCount - highCount - mediumCount } }

/-- A challenge dict emitted by a critique module (`"type"`,
`"severity"`, free-text fields, optional targets). -/
structure Challenge where
  typ : String
  severity : Severity
  challenge : String := ""
  impact : String := ""
  targetAgent : Option String := none
  targetAnomaly : Option String := none
  deriving Repr, DecidableEq

/-- A blind-spot dict (`"agent"`, `"issue"`, `"risk"`). -/
structure BlindSpot where
  agent : String
  issue : String
  risk : String
  deriving Repr, DecidableEq

/-- One entry of the class-level `RedTeamAgent.learning_log`.  The
wall-clock timestamp and the file hash are ambient inputs, passed in
as parameters of the run. -/
structure LogEntry where
  timestamp : String
  fileHash : String
  challengesCount : ℕ
  blindSpotsCount : ℕ
  confidenceAdjustment : ℚ
  verdictChallenged : Bool
  deriving Repr, DecidableEq

/-- The critique result dict returned by `RedTeamAgent.challenge`. -/
structure RedTeamResult where
  agent_type : String
  challenges : List Challenge
  blind_spots : List BlindSpot
  recommendations : List String
  confidence_adjustment : ℚ
  threat_level : ThreatLevel
  learning_log_size : ℕ
  summary : String
  deriving Repr, DecidableEq

/-- Embedding of `RedTeamAgent._check_false_positives`.  Python builds
the challenge list and the optional adjustment inside nested branches;
here the shared branch condition is named once.  A `none` image models
the swallowed `Image.open` exception (`except: pass`).  The adjustment
is `None` or exactly `0.05`, so Python's truthiness test on it
coincides with the `Option` shape. -/
def checkFalsePositives (results : List OpinionRecord) (fileSize : ℕ)
    (decoded : Option ImgView) : List Challenge × Option ℚ :=
  match results.find? (fun r => r.agent_type == "forensic_technical") with
  | none => ([], none)
  | some forensic =>
    let items := forensic.anomalies
    let hasEla := items.any (fun a => strIn "ELA" a.typ)
    let socialRecompress :=
      hasEla &&
        (match decoded with
         | some img =>
           (img.format == some "JPEG") &&
             (let pixels := img.width * img.height
              let bpp : ℚ := if pixels > 0 then (fileSize : ℚ) / (pixels : ℚ) else 0
              decide (bpp < 3/10))
         | none => false)
    let elaChallenges :=
      if socialRecompress then
        [{ typ := "false_positive_risk"
           targetAgent := some "forensic_technical"
           targetAnomaly := some "ELA"
           challenge := "אנומליית ELA עשויה להיות תוצאה של דחיסה כפולה לגיטימית (שיתוף ברשתות חברתיות/WhatsApp). יחס דחיסה מצביע על שמירות מרובות."
           severity := .medium
           impact := "ציון הפורנזי עשוי להיות נמוך מדי (false positive)." }]
      else []
    let adjustment : Option ℚ := if socialRecompress then some (5/100) else none
    let hasMeta := items.any (fun a => strIn "מטאדטה" a.typ)
    let metaChallenges :=
      if hasMeta then
        [{ typ := "false_positive_risk"
           targetAgent := some "forensic_technical"
           targetAnomaly := some "metadata"
           challenge := "חוסר מטאדטה EXIF אינו בהכרח מעיד על זיוף. פלטפורמות רבות (Twitter, Facebook, WhatsApp) מסירות EXIF באופן אוטומטי."
           severity := .low
           impact := "חוסר EXIF לבדו אינו ראיה מספקת." }]
      else []
    (elaChallenges ++ metaChallenges, adjustment)

/-- Embedding of `RedTeamAgent._check_false_negatives`. -/
def checkFalseNegatives (results : List OpinionRecord) : List BlindSpot :=
  let perAgent := results.filterMap (fun r =>
    if r.anomalies.isEmpty ∧ r.confidence_score > 8/10 then
      some { agent := r.agent_type
             issue := "סוכן " ++ r.agent_type ++ " דיווח ביטחון גבוה (" ++ fmtPct0 r.confidence_score
               ++ ") ללא ממצאים. האם הוא לא בדק מספיק?"
             risk := "false_negative" }
    else none)
  let agentTypes := results.map (·.agent_type)
  let allAnomalyTypes := (results.map (fun r => r.anomalies.map (·.typ))).flatten
  let cloneSpots :=
    if ¬ strIn "clone_detection" (String.intercalate " " allAnomalyTypes).toLower then
      [{ agent := "system"
         issue := "לא בוצע ניתוח copy-move/clone detection. טכניקת זיוף נפוצה שעלולה לחמוק מהסוכנים הנוכחיים."
         risk := "missing_capability" }]
    else []
  let aiSpots :=
    if ¬ agentTypes.contains "ai_generation" then
      [{ agent := "system"
         issue := "סוכן זיהוי AI לא הופעל. תמונות GAN/diffusion עלולות לעבור ללא זיהוי."
         risk := "missing_agent" }]
    else []
  perAgent ++ cloneSpots ++ aiSpots

/-- The `scores` dict comprehension of `_check_cross_consistency`:
insertion-ordered keys, later duplicates overwrite the value. -/
def scoresDict (results : List OpinionRecord) : List (String × ℚ) :=
  results.foldl
    (fun acc r =>
      if acc.any (fun p => p.1 == r.agent_type) then
        acc.map (fun p => if p.1 == r.agent_type then (p.1, r.confidence_score) else p)
      else acc ++ [(r.agent_type, r.confidence_score)])
    []

/-- Python `[k for k, v in scores.items() if v == target][0]`. -/
def firstKeyWith (scores : List (String × ℚ)) (target : ℚ) : String :=
  (((scores.filter (fun p => p.2 == target)).head?).map (·.1)).getD ""

/-- Python `scores.get(key, 0.5)`. -/
def scoreGet (scores : List (String × ℚ)) (key : String) : ℚ :=
  ((scores.find? (fun p => p.1 == key)).map (·.2)).getD (1/2)

/-- Embedding of `RedTeamAgent._check_cross_consistency`.  The
adjustment is `None` or exactly `-0.03`, so Python's truthiness test
on it coincides with the `Option` shape. -/
def checkCrossConsistency (results : List OpinionRecord) : List Challenge × Option ℚ :=
  let scores := scoresDict results
  let vals := scores.map (·.2)
  let maxS := qMax vals
  let minS := qMin vals
  let gap := maxS - minS
  let gapFired := scores.length ≥ 2 ∧ gap > 3/10
  let gapChallenges :=
    if gapFired then
      [{ typ := "consistency_gap"
         challenge := "פער משמעותי (" ++ fmtPct0 gap ++ ") בין " ++ firstKeyWith scores maxS
           ++ " (" ++ fmtPct0 maxS ++ ") ל-" ++ firstKeyWith scores minS
           ++ " (" ++ fmtPct0 minS ++ "). אחד מהם עלול לטעות."
         severity := .high
         impact := "הציון המשוקלל עשוי להיות מטעה." }]
    else []
  let adjustment : Option ℚ := if gapFired then some (-(3/100)) else none
  let forensicScore := scoreGet scores "forensic_technical"
  let contextualScore := scoreGet scores "contextual"
  let disagreeChallenges :=
    if |forensicScore - contextualScore| > 25/100 then
      [{ typ := "cross_disagreement"
         challenge := "הפורנזי וההקשרי חלוקים. ייתכן זיוף מתוחכם שעבר רק שכבה אחת, או false positive בשכבה אחרת."
         severity := .medium
         impact := "נדרשת בחינה ידנית של נקודות החפיפה." }]
    else []
  (gapChallenges ++ disagreeChallenges, adjustment)

/-- Embedding of `RedTeamAgent._check_edge_cases`; a `none` image is
the `except` branch. -/
def checkEdgeCases (decoded : Option ImgView) : List Challenge × List String :=
  match decoded with
  | none =>
    ([{ typ := "parse_error"
        challenge := "לא ניתן לפרסר את הקובץ לניתוח edge cases."
        severity := .low
        impact := "בדיקות edge cases לא בוצעו." }], [])
  | some img =>
    let lowRes :=
      if img.width < 200 ∨ img.height < 200 then
        [{ typ := "low_resolution"
           challenge := "רזולוציית התמונה נמוכה (" ++ toString img.width ++ "x" ++ toString img.height
             ++ "). ניתוח ELA ו-artifacts פחות אמין בתמונות קטנות."
           severity := .high
           impact := "כל הממצאים צריכים להיחשב בזהירות." }]
      else []
    let cropRecs :=
      if img.width > 5000 ∨ img.height > 5000 then
        ["תמונה ברזולוציה גבוהה מאוד — שקול לבדוק חיתוך/קרופ מתמונה מקורית גדולה יותר."]
      else []
    let grayscale :=
      if img.mode = "L" ∨ img.mode = "LA" then
        [{ typ := "grayscale"
           challenge := "תמונה בגווני אפור. ניתוח צבע, תאורה וחלק מבדיקות AI פחות אמינים."
           severity := .medium
           impact := "סוכנים פיזיקלי והקשרי עשויים להחמיץ אנומליות." }]
      else []
    (lowRes ++ grayscale, cropRecs)

/-- Embedding of `RedTeamAgent._challenge_verdict`. -/
def challengeVerdict (crossRef : CrossRefResult) (results : List OpinionRecord) : List Challenge :=
  let verdict := crossRef.final_verdict
  let score := crossRef.combined_score
  let authenticChallenges :=
    if verdict = .authentic then
      let totalHigh := countHighAnoms results
      if totalHigh > 0 then
        [{ typ := "verdict_challenge"
           challenge := "פסיקת authentic למרות " ++ toString totalHigh
             ++ " אנומליות בחומרה גבוהה. האם המשקלות שגויים?"
           severity := .high
           impact := "עלול להיות false negative מסוכן." }]
      else []
    else []
  let forgedChallenges :=
    if verdict = .forged ∧ score > 7/10 then
      [{ typ := "verdict_challenge"
         challenge := "פסיקת forged אבל ציון הביטחון גבוה (" ++ fmtPct0 score
           ++ "). ייתכן שהמודל שגוי — ציון גבוה אמור להצביע על אותנטיות."
         severity := .medium
         impact := "ייתכן שהתגלתה באג בלוגיקת הפסיקה." }]
    else []
  authenticChallenges ++ forgedChallenges

/-- Embedding of `RedTeamAgent._generate_recommendations`; reads the
learning log as it stands before this run's append. -/
def generateRecommendations (log : List LogEntry) (challenges : List Challenge)
    (blindSpots : List BlindSpot) : List String :=
  let escalation :=
    if challenges.any (fun c => c.severity == .high) then
      ["נמצאו אתגרים ברמה גבוהה — מומלץ לשלב מומחה HITL לאימות."]
    else []
  let capability :=
    if blindSpots.length ≥ 2 then
      ["זוהו מספר נקודות עיוורות. שקול להרחיב את סט הסוכנים (clone detection, frequency analysis)."]
    else []
  let trend :=
    if log.length ≥ 5 then
      let recent := log.drop (log.length - 5)
      let avgChallenges : ℚ := ((recent.map (fun e => (e.challengesCount : ℚ))).sum) / 5
      if avgChallenges > 3 then
        ["ב-5 הניתוחים האחרונים נמצאו בממוצע " ++ fmtFixed1 avgChallenges
          ++ " אתגרים — המערכת עשויה להיות רגישה מדי (over-sensitive)."]
      else []
    else []
  escalation ++ capability ++ trend

/-- Embedding of `RedTeamAgent._calc_threat_level`. -/
def calcThreatLevel (challenges : List Challenge) (blindSpots : List BlindSpot) : ThreatLevel :=
  let high := challenges.countP (fun c => c.severity == .high)
  let total := challenges.length + blindSpots.length
  if high ≥ 2 ∨ total ≥ 5 then .high
  else if high ≥ 1 ∨ total ≥ 3 then .medium
  else .low

/-- Hebrew rendering of a threat level inside the summary string. -/
def threatName : ThreatLevel → String
  | .low => "low"
  | .medium => "medium"
  | .high => "high"

/-- Embedding of `RedTeamAgent._build_summary`. -/
def buildSummary (challenges : List Challenge) (blindSpots : List BlindSpot)
    (recs : List String) (threat : ThreatLevel) : String :=
  let p1 := "צוות אדום זיהה " ++ toString challenges.length ++ " אתגרים ו-"
    ++ toString blindSpots.length ++ " נקודות עיוורות."
  let p2 := "רמת איום: " ++ threatName threat ++ "."
  let p3 := if recs.isEmpty then [] else ["הומלצו " ++ toString recs.length ++ " שיפורים."]
  String.intercalate " " ([p1, p2] ++ p3)

/-- Embedding of `RedTeamAgent.challenge`.  `now` and `fileHash` stand
for `datetime.utcnow().isoformat()` and the truncated SHA-256 of the
file bytes; the class-level `learning_log` is threaded explicitly, so
the function returns the new log alongside the result.  Adjustments
proposed by the modules are 0.05 or −0.03, never 0, so Python's
truthiness tests on them coincide with `Option.toList`. -/
def redTeamChallenge (now fileHash : String) (fileSize : ℕ) (decoded : Option ImgView)
    (results : List OpinionRecord) (crossRef : CrossRefResult)
    (log : List LogEntry) : RedTeamResult × List LogEntry :=
  let fp := checkFalsePositives results fileSize decoded
  let blindSpots := checkFalseNegatives results
  let consistency := checkCrossConsistency results
  let edge := checkEdgeCases decoded
  let meta := challengeVerdict crossRef results
  let challenges := fp.1 ++ consistency.1 ++ edge.1 ++ meta
  let adjustments := fp.2.toList ++ consistency.2.toList
  let adj : ℚ := if adjustments.isEmpty then 0 else adjustments.sum / adjustments.length
  let recommendations := edge.2 ++ generateRecommendations log challenges blindSpots
  let entry : LogEntry :=
    { timestamp := now
      fileHash := fileHash
      challengesCount := challenges.length
      blindSpotsCount := blindSpots.length
      confidenceAdjustment := pyRound 3 adj
      verdictChallenged := meta.length > 0 }
  let newLog := log ++ [entry]
  let threat := calcThreatLevel challenges blindSpots
  ({ agent_type := "red_team"
     challenges := challenges
     blind_spots := blindSpots
     recommendations := recommendations
     confidence_adjustment := pyRound 3 adj
     threat_level := threat
     learning_log_size := newLog.length
     summary := buildSummary challenges blindSpots recommendations threat },
   newLog)

/-- The orchestrator's final adjudication record. -/
structure FinalVerdict where
  verdict : Verdict
  confidence : ℚ
  hitl_required : Bool
  deriving Repr, DecidableEq

/-- Embedding of `Orchestrator._final_verdict`. -/
def finalVerdict (crossRef : CrossRefResult) (redTeam : RedTeamResult) : FinalVerdict :=
  let baseScore := crossRef.combined_score
  let baseVerdict := crossRef.final_verdict
  let adj := redTeam.confidence_adjustment
  let adjustedScore := max (5/100) (min (99/100) (baseScore + adj))
  let threat := redTeam.threat_level
  let verdictChallenges := redTeam.challenges.filter (fun c => c.typ == "verdict_challenge")
  let adjustedVerdict : Verdict :=
    if ¬ verdictChallenges.isEmpty ∧ (baseVerdict = .authentic ∨ baseVerdict = .forged) then
      .inconclusive
    else if adjustedScore ≥ 75/100 ∧ baseVerdict = .authentic then .authentic
    else if baseVerdict = .forged then .forged
    else .inconclusive
  let hitl : Bool :=
    adjustedVerdict == .inconclusive
      || threat == .high || threat == .medium
      || redTeam.blind_spots.length ≥ 2
  { verdict := adjustedVerdict
    confidence := pyRound 3 adjustedScore
    hitl_required := hitl }

theorem roundHalfEven_cases (q : ℚ) :
    roundHalfEven q = ⌊q⌋ ∨ roundHalfEven q = ⌊q⌋ + 1 := by
  unfold roundHalfEven
  dsimp only
  split_ifs <;> simp

theorem le_roundHalfEven (q : ℚ) (m : ℤ) (h : (m : ℚ) ≤ q) :
    m ≤ roundHalfEven q := by
  have hfloor : m ≤ ⌊q⌋ := Int.le_floor.mpr h
  rcases roundHalfEven_cases q with hc | hc <;> omega

theorem roundHalfEven_le (q : ℚ) (m : ℤ) (h : q ≤ (m : ℚ)) :
    roundHalfEven q ≤ m := by
  have hfloor : ⌊q⌋ ≤ m := by
    calc ⌊q⌋ ≤ ⌊(m : ℚ)⌋ := Int.floor_le_floor h
    _ = m := Int.floor_intCast m
  rcases roundHalfEven_cases q with hc | hc
  · omega
  · rcases eq_or_lt_of_le hfloor with heq | hlt
    · exfalso
      have hr : q - ⌊q⌋ < 1/2 := by
        have : q - (⌊q⌋ : ℚ) ≤ 0 := by
          rw [heq]
          linarith
        linarith
      unfold roundHalfEven at hc
      rw [if_pos hr] at hc
      omega
    · omega

theorem roundHalfEven_intCast (m : ℤ) : roundHalfEven (m : ℚ) = m := by
  have h1 := roundHalfEven_le (m : ℚ) m le_rfl
  have h2 := le_roundHalfEven (m : ℚ) m le_rfl
  omega

theorem pyRound_bounds (d : ℕ) (q : ℚ) (lo hi : ℤ)
    (h1 : (lo : ℚ) ≤ q * 10 ^ d) (h2 : q * 10 ^ d ≤ (hi : ℚ)) :
    (lo : ℚ) / 10 ^ d ≤ pyRound d q ∧ pyRound d q ≤ (hi : ℚ) / 10 ^ d := by
  have hpow : (0 : ℚ) < 10 ^ d := by positivity
  have hlo := le_roundHalfEven (q * 10 ^ d) lo h1
  have hhi := roundHalfEven_le (q * 10 ^ d) hi h2
  unfold pyRound
  constructor
  · gcongr
  · gcongr

theorem pyRound_intDiv (d : ℕ) (k : ℤ) :
    pyRound d ((k : ℚ) / 10 ^ d) = (k : ℚ) / 10 ^ d := by
  have hpow : (10 : ℚ) ^ d ≠ 0 := by positivity
  unfold pyRound
  rw [div_mul_cancel₀ _ hpow, roundHalfEven_intCast]

/-- Verdict decision rule exactly as the spec words it (first match
wins), to be compared against the aggregator embedding. -/
def verdictRule (highCount : ℕ) (score : ℚ) : Verdict :=
  if highCount ≥ 3 ∨ (highCount ≥ 2 ∧ score < 1/2) then .forged
  else if score ≥ 75/100 ∧ highCount = 0 then .authentic
  else .inconclusive

/-- Threat-level thresholds exactly as the spec words them, as a
function of the pair (high-severity challenge count, challenges plus
blind spots total). -/
def threatOf (highCount total : ℕ) : ThreatLevel :=
  if highCount ≥ 2 ∨ total ≥ 5 then .high
  else if highCount ≥ 1 ∨ total ≥ 3 then .medium
  else .low

/-- Rank of a threat level in the order low < medium < high. -/
def threatRank : ThreatLevel → ℕ
  | .low => 0
  | .medium => 1
  | .high => 2

theorem WEIGHTS_ge (t : String) : 1/10 ≤ WEIGHTS t := by
  unfold WEIGHTS
  split_ifs <;> norm_num

theorem totalWeight_nonneg (rs : List OpinionRecord) : 0 ≤ totalWeight rs := by
  induction rs with
  | nil => simp [totalWeight]
  | cons r tl ih =>
    have hr : (0 : ℚ) ≤ WEIGHTS r.agent_type := le_trans (by norm_num) (WEIGHTS_ge r.agent_type)
    simp only [totalWeight, List.map_cons, List.sum_cons] at ih ⊢
    linarith

theorem totalWeight_pos (rs : List OpinionRecord) (h : ¬ rs.isEmpty) :
    0 < totalWeight rs := by
  cases rs with
  | nil => simp at h
  | cons r tl =>
    have hr := WEIGHTS_ge r.agent_type
    have htl := totalWeight_nonneg tl
    simp only [totalWeight, List.map_cons, List.sum_cons] at htl ⊢
    linarith

theorem weightedSum_nonneg (rs : List OpinionRecord)
    (h : ∀ r ∈ rs, 0 ≤ r.confidence_score) : 0 ≤ weightedSum rs := by
  induction rs with
  | nil => simp [weightedSum]
  | cons r tl ih =>
    have hw : (0 : ℚ) ≤ WEIGHTS r.agent_type := le_trans (by norm_num) (WEIGHTS_ge r.agent_type)
    have hc : 0 ≤ r.confidence_score := h r (List.mem_cons_self r tl)
    have ihtl : 0 ≤ weightedSum tl := ih (fun x hx => h x (List.mem_cons_of_mem r hx))
    simp only [weightedSum, List.map_cons, List.sum_cons] at ihtl ⊢
    nlinarith

theorem weightedSum_le_totalWeight (rs : List OpinionRecord)
    (h : ∀ r ∈ rs, r.confidence_score ≤ 1) : weightedSum rs ≤ totalWeight rs := by
  induction rs with
  | nil => simp [weightedSum, totalWeight]
  | cons r tl ih =>
    have hw : (0 : ℚ) ≤ WEIGHTS r.agent_type := le_trans (by norm_num) (WEIGHTS_ge r.agent_type)
    have hc : r.confidence_score ≤ 1 := h r (List.mem_cons_self r tl)
    have ihtl : weightedSum tl ≤ totalWeight tl := ih (fun x hx => h x (List.mem_cons_of_mem r hx))
    simp only [weightedSum, totalWeight, List.map_cons, List.sum_cons] at ihtl ⊢
    nlinarith

theorem penaltySum_int (l : List Anomaly) :
    ∃ n : ℤ, (l.map (fun a => severityPenalty a.severity)).sum = (n : ℚ) / 100 := by
  induction l with
  | nil => exact ⟨0, by simp⟩
  | cons a tl ih =>
    obtain ⟨n, hn⟩ := ih
    cases ha : a.severity
    · refine ⟨3 + n, ?_⟩
      rw [List.map_cons, List.sum_cons, hn, ha]
      show severityPenalty .low + _ = _
      rw [severityPenalty]
      push_cast
      ring
    · refine ⟨8 + n, ?_⟩
      rw [List.map_cons, List.sum_cons, hn, ha]
      show severityPenalty .medium + _ = _
      rw [severityPenalty]
      push_cast
      ring
    · refine ⟨15 + n, ?_⟩
      rw [List.map_cons, List.sum_cons, hn, ha]
      show severityPenalty .high + _ = _
      rw [severityPenalty]
      push_cast
      ring

theorem checkFalsePositives_adj (rs : List OpinionRecord) (fs : ℕ) (dec : Option ImgView) :
    (checkFalsePositives rs fs dec).2 = none ∨ (checkFalsePositives rs fs dec).2 = some (5/100) := by
  rcases hf : rs.find? (fun r => r.agent_type == "forensic_technical") with _ | f
  · simp [checkFalsePositives, hf]
  · simp only [checkFalsePositives, hf]
    split_ifs <;> simp

theorem checkCrossConsistency_adj (rs : List OpinionRecord) :
    (checkCrossConsistency rs).2 = none ∨ (checkCrossConsistency rs).2 = some (-(3/100)) := by
  simp only [checkCrossConsistency]
  split_ifs <;> simp

theorem redTeamChallenge_challenges (now fileHash : String) (fs : ℕ) (dec : Option ImgView)
    (rs : List OpinionRecord) (cr : CrossRefResult) (log : List LogEntry) :
    (redTeamChallenge now fileHash fs dec rs cr log).1.challenges =
      (checkFalsePositives rs fs dec).1 ++ (checkCrossConsistency rs).1
        ++ (checkEdgeCases dec).1 ++ challengeVerdict cr rs := rfl

theorem finalVerdict_override (cr : CrossRefResult) (rt : RedTeamResult)
    (hex : ∃ c ∈ rt.challenges, c.typ = "verdict_challenge")
    (hbv : cr.final_verdict = .authentic ∨ cr.final_verdict = .forged) :
    (finalVerdict cr rt).verdict = .inconclusive ∧ (finalVerdict cr rt).hitl_required = true := by
  obtain ⟨c, hc, hty⟩ := hex
  have hmem : c ∈ rt.challenges.filter (fun c => c.typ == "verdict_challenge") :=
    List.mem_filter.mpr ⟨hc, by simp [hty]⟩
  have hne : ¬ (rt.challenges.filter (fun c => c.typ == "verdict_challenge")).isEmpty := by
    intro h
    rw [List.isEmpty_iff] at h
    rw [h] at hmem
    exact absurd hmem (List.not_mem_nil c)
  simp only [finalVerdict]
  rw [if_pos ⟨hne, hbv⟩]
  simp

theorem challengeVerdict_fires (cr : CrossRefResult) (rs : List OpinionRecord)
    (hv : cr.final_verdict = .authentic) (hh : 0 < countHighAnoms rs) :
    ∃ c ∈ challengeVerdict cr rs, c.typ = "verdict_challenge" := by
  simp [challengeVerdict, hv, hh]

/-- C2: a verdict-challenge from the critique engine forces a
preliminary authentic/forged verdict to inconclusive; in particular,
when the preliminary verdict is authentic and some high-severity
anomaly exists across the opinions, the critique engine emits a
verdict-challenge and the orchestrator's final verdict is
inconclusive with hitl_required = true. -/
theorem claim_C2 :
    (∀ (cr : CrossRefResult) (rt : RedTeamResult),
      (∃ c ∈ rt.challenges, c.typ = "verdict_challenge") →
      (cr.final_verdict = .authentic ∨ cr.final_verdict = .forged) →
      (finalVerdict cr rt).verdict = .inconclusive)
    ∧ (∀ (now fileHash : String) (fs : ℕ) (dec : Option ImgView)
        (rs : List OpinionRecord) (cr : CrossRefResult) (log : List LogEntry),
      cr.final_verdict = .authentic →
      0 < countHighAnoms rs →
      (∃ c ∈ (redTeamChallenge now fileHash fs dec rs cr log).1.challenges,
        c.typ = "verdict_challenge")
      ∧ (finalVerdict cr (redTeamChallenge now fileHash fs dec rs cr log).1).verdict = .inconclusive
      ∧ (finalVerdict cr (redTeamChallenge now fileHash fs dec rs cr log).1).hitl_required = true) := by
  constructor
  · intro cr rt hex hbv
    exact (finalVerdict_override cr rt hex hbv).1
  · intro now fileHash fs dec rs cr log hv hh
    obtain ⟨c, hc, hty⟩ := challengeVerdict_fires cr rs hv hh
    have hcmem : c ∈ (redTeamChallenge now fileHash fs dec rs cr log).1.challenges := by
      rw [redTeamChallenge_challenges]
      simp only [List.mem_append]
      exact Or.inr hc
    have hover := finalVerdict_override cr (redTeamChallenge now fileHash fs dec rs cr log).1
      ⟨c, hcmem, hty⟩ (Or.inl hv)
    exact ⟨⟨c, hcmem, hty⟩, hover.1, hover.2⟩

/-- Witness for C2 at a concrete run: one opinion with a high-severity
anomaly, a preliminary authentic verdict, an undecodable image. -/
theorem claim_C2_witness :
    (finalVerdict
      { combined_score := 8/10, final_verdict := .authentic, reasoning := "" }
      (redTeamChallenge "t" "h" 0 none
        [{ agent_type := "physical", confidence_score := 9/10,
           anomalies := [{ typ := "t", description := "", severity := .high }] }]
        { combined_score := 8/10, final_verdict := .authentic, reasoning := "" } []).1).verdict
      = .inconclusive
    ∧ (finalVerdict
      { combined_score := 8/10, final_verdict := .authentic, reasoning := "" }
      (redTeamChallenge "t" "h" 0 none
        [{ agent_type := "physical", confidence_score := 9/10,
           anomalies := [{ typ := "t", description := "", severity := .high }] }]
        { combined_score := 8/10, final_verdict := .authentic, reasoning := "" } []).1).hitl_required
      = true := by
  have h := claim_C2.2 "t" "h" 0 none
    [{ agent_type := "physical", confidence_score := 9/10,
       anomalies := [{ typ := "t", description := "", severity := .high }] }]
    { combined_score := 8/10, final_verdict := .authentic, reasoning := "" } []
    rfl (by decide)
  exact ⟨h.2.1, h.2.2⟩

/-- The single-opinion set of the C1 scenario: one forensic_technical
record, confidence 0.95, no anomalies. -/
def opinionC1 : OpinionRecord :=
  { agent_type := "forensic_technical", confidence_score := 95/100, anomalies := [] }

theorem combinedScore_opinionC1 : combinedScore [opinionC1] = 19/20 := by
  unfold combinedScore totalWeight weightedSum
  norm_num [opinionC1, WEIGHTS, pyRound, roundHalfEven]

theorem crossRefAnalyze_opinionC1_score :
    (crossRefAnalyze [opinionC1]).combined_score = 19/20 := by
  unfold crossRefAnalyze
  rw [if_neg (by simp)]
  exact combinedScore_opinionC1

theorem crossRefAnalyze_opinionC1_verdict :
    (crossRefAnalyze [opinionC1]).final_verdict = .authentic := by
  unfold crossRefAnalyze
  rw [if_neg (by simp)]
  show verdictRule (countHighAnoms [opinionC1]) (combinedScore [opinionC1]) = .authentic
  rw [combinedScore_opinionC1, show countHighAnoms [opinionC1] = 0 from rfl]
  unfold verdictRule
  norm_num

theorem finalVerdict_eval (cr : CrossRefResult) (rt : RedTeamResult)
    (hfil : rt.challenges.filter (fun c => c.typ == "verdict_challenge") = [])
    (hv : cr.final_verdict = .authentic)
    (h75 : 75/100 ≤ max (5/100) (min (99/100) (cr.combined_score + rt.confidence_adjustment))) :
    (finalVerdict cr rt).verdict = .authentic
    ∧ (finalVerdict cr rt).hitl_required
        = ((rt.threat_level == ThreatLevel.high) || (rt.threat_level == ThreatLevel.medium)
            || decide (2 ≤ rt.blind_spots.length)) := by
  unfold finalVerdict
  dsimp only
  rw [hfil, hv]
  rw [if_neg (by simp)]
  rw [if_pos ⟨h75, rfl⟩]
  exact ⟨rfl, rfl⟩

/-- C1 as literally stated is false: at this concrete critique result
(no verdict-challenge, threat level low, but two blind spots — a
combination the engine itself can produce, as the matching
`calcThreatLevel` value shows) the final verdict is authentic yet
`hitl_required` is true, because rule 4 also escalates on
`blind_spot_count ≥ 2`. -/
theorem claim_C1_counterexample :
    (crossRefAnalyze [opinionC1]).combined_score = 19/20
    ∧ (crossRefAnalyze [opinionC1]).final_verdict = .authentic
    ∧ ({ agent_type := "red_team", challenges := [],
         blind_spots := [{ agent := "system", issue := "a", risk := "missing_capability" },
                         { agent := "system", issue := "b", risk := "missing_agent" }],
         recommendations := [], confidence_adjustment := 0, threat_level := .low,
         learning_log_size := 1, summary := "" } : RedTeamResult).challenges = []
    ∧ ({ agent_type := "red_team", challenges := [],
         blind_spots := [{ agent := "system", issue := "a", risk := "missing_capability" },
                         { agent := "system", issue := "b", risk := "missing_agent" }],
         recommendations := [], confidence_adjustment := 0, threat_level := .low,
         learning_log_size := 1, summary := "" } : RedTeamResult).threat_level = .low
    ∧ calcThreatLevel []
        [{ agent := "system", issue := "a", risk := "missing_capability" },
         { agent := "system", issue := "b", risk := "missing_agent" }] = .low
    ∧ (finalVerdict (crossRefAnalyze [opinionC1])
        { agent_type := "red_team", challenges := [],
          blind_spots := [{ agent := "system", issue := "a", risk := "missing_capability" },
                          { agent := "system", issue := "b", risk := "missing_agent" }],
          recommendations := [], confidence_adjustment := 0, threat_level := .low,
          learning_log_size := 1, summary := "" }).verdict = .authentic
    ∧ (finalVerdict (crossRefAnalyze [opinionC1])
        { agent_type := "red_team", challenges := [],
          blind_spots := [{ agent := "system", issue := "a", risk := "missing_capability" },
                          { agent := "system", issue := "b", risk := "missing_agent" }],
          recommendations := [], confidence_adjustment := 0, threat_level := .low,
          learning_log_size := 1, summary := "" }).hitl_required = true := by
  have heval := finalVerdict_eval (crossRefAnalyze [opinionC1])
    { agent_type := "red_team", challenges := [],
      blind_spots := [{ agent := "system", issue := "a", risk := "missing_capability" },
                      { agent := "system", issue := "b", risk := "missing_agent" }],
      recommendations := [], confidence_adjustment := 0, threat_level := .low,
      learning_log_size := 1, summary := "" }
    rfl crossRefAnalyze_opinionC1_verdict
    (by rw [crossRefAnalyze_opinionC1_score]; norm_num [min_def, max_def])
  refine ⟨crossRefAnalyze_opinionC1_score, crossRefAnalyze_opinionC1_verdict,
    rfl, rfl, rfl, heval.1, ?_⟩
  rw [heval.2]
  rfl

/-- C1 (amended): with the single 0.95 forensic opinion the aggregator
returns combined_score 0.95 and preliminary verdict authentic; and for
any critique result with no verdict-challenge, threat level low,
fewer than two blind spots and a confidence adjustment of at least
−0.2 (the engine only ever proposes −0.03, 0.01 or 0.05), the final
verdict is authentic with hitl_required = false. -/
theorem claim_C1_amended :
    (crossRefAnalyze [opinionC1]).combined_score = 19/20
    ∧ (crossRefAnalyze [opinionC1]).final_verdict = .authentic
    ∧ ∀ rt : RedTeamResult,
        (∀ c ∈ rt.challenges, c.typ ≠ "verdict_challenge") →
        rt.threat_level = .low →
        rt.blind_spots.length < 2 →
        -(1/5) ≤ rt.confidence_adjustment →
        (finalVerdict (crossRefAnalyze [opinionC1]) rt).verdict = .authentic
        ∧ (finalVerdict (crossRefAnalyze [opinionC1]) rt).hitl_required = false := by
  refine ⟨crossRefAnalyze_opinionC1_score, crossRefAnalyze_opinionC1_verdict, ?_⟩
  intro rt hvc hthreat hbs hadj
  have hfilter : rt.challenges.filter (fun c => c.typ == "verdict_challenge") = [] := by
    rw [List.filter_eq_nil_iff]
    intro c hc
    simpa using hvc c hc
  have h75 : (75 : ℚ)/100 ≤ max (5/100) (min (99/100)
      ((crossRefAnalyze [opinionC1]).combined_score + rt.confidence_adjustment)) := by
    rw [crossRefAnalyze_opinionC1_score]
    have h1 : (3 : ℚ)/4 ≤ 19/20 + rt.confidence_adjustment := by linarith
    have h2 : (3 : ℚ)/4 ≤ min (99/100) (19/20 + rt.confidence_adjustment) :=
      le_min (by norm_num) h1
    calc (75 : ℚ)/100 = 3/4 := by norm_num
    _ ≤ min (99/100) (19/20 + rt.confidence_adjustment) := h2
    _ ≤ max (5/100) (min (99/100) (19/20 + rt.confidence_adjustment)) := le_max_right _ _
  have heval := finalVerdict_eval (crossRefAnalyze [opinionC1]) rt hfilter
    crossRefAnalyze_opinionC1_verdict h75
  refine ⟨heval.1, ?_⟩
  rw [heval.2, hthreat]
  simp [Nat.not_le.mpr hbs]

/-- Witness for the amended C1 at a concrete clean critique result. -/
theorem claim_C1_witness :
    (finalVerdict (crossRefAnalyze [opinionC1])
      { agent_type := "red_team", challenges := [], blind_spots := [],
        recommendations := [], confidence_adjustment := 0, threat_level := .low,
        learning_log_size := 1, summary := "" }).verdict = .authentic
    ∧ (finalVerdict (crossRefAnalyze [opinionC1])
      { agent_type := "red_team", challenges := [], blind_spots := [],
        recommendations := [], confidence_adjustment := 0, threat_level := .low,
        learning_log_size := 1, summary := "" }).hitl_required = false :=
  claim_C1_amended.2.2
    { agent_type := "red_team", challenges := [], blind_spots := [],
      recommendations := [], confidence_adjustment := 0, threat_level := .low,
      learning_log_size := 1, summary := "" }
    (by simp) rfl (by decide) (by norm_num)

/-- C3: for a non-empty opinion set the preliminary verdict follows
the ordered rule (forged on high-count thresholds, else authentic on
score ≥ 0.75 with zero highs, else inconclusive); in particular three
or more high-severity anomalies force forged. -/
theorem claim_C3 (rs : List OpinionRecord) (h : ¬ rs.isEmpty) :
    (crossRefAnalyze rs).final_verdict = verdictRule (countHighAnoms rs) (combinedScore rs)
    ∧ (3 ≤ countHighAnoms rs → (crossRefAnalyze rs).final_verdict = .forged) := by
  have hv : (crossRefAnalyze rs).final_verdict
      = verdictRule (countHighAnoms rs) (combinedScore rs) := by
    unfold crossRefAnalyze
    rw [if_neg h]
    rfl
  refine ⟨hv, fun h3 => ?_⟩
  rw [hv]
  unfold verdictRule
  rw [if_pos (Or.inl h3)]

/-- Witness for C3: one opinion with three high anomalies and a very
high confidence still yields forged. -/
theorem claim_C3_witness :
    (crossRefAnalyze
      [{ agent_type := "physical", confidence_score := 99/100,
         anomalies := [{ typ := "a", description := "", severity := .high },
                       { typ := "b", description := "", severity := .high },
                       { typ := "c", description := "", severity := .high }] }]).final_verdict
      = .forged :=
  (claim_C3
    [{ agent_type := "physical", confidence_score := 99/100,
       anomalies := [{ typ := "a", description := "", severity := .high },
                     { typ := "b", description := "", severity := .high },
                     { typ := "c", description := "", severity := .high }] }]
    (by decide)).2 (by decide)

/-- The C4 scenario image: 1024×1024 JPEG with first-quantization-table
standard deviation 30, parameterized over the parts the scenario leaves
open (EXIF tags, ELA statistics, color mode). -/
def imgC4 (tags : List (String × String)) (ela : Option ElaView) (mode : String) : ImgView :=
  { width := 1024, height := 1024, format := some "JPEG", mode := mode,
    exifTags := tags, ela := ela, quantStd := some 30 }

/-- C4: the Signal Analyzer's confidence is 0.92 on an empty anomaly
list and otherwise 0.92 minus the per-anomaly penalty sum
(high 0.15, medium 0.08, low 0.03) floored at 0.15 — the code's
2-decimal rounding is exact on these values; and the 1024×1024
quantization-std-30 scenario yields exactly the medium dimension and
medium double-compression anomalies with confidence 0.76. -/
theorem claim_C4 :
    (∀ l : List Anomaly, calculateConfidence l =
      if l.isEmpty then 92/100
      else max (15/100) (92/100 - (l.map (fun a => severityPenalty a.severity)).sum))
    ∧ ∀ (fileSize : ℕ) (tags : List (String × String)) (ela : Option ElaView) (mode : String),
        analyzeExif tags = [] →
        analyzeEla ela = [] →
        ¬ ((fileSize : ℚ) / ((1024 * 1024 : ℕ) : ℚ) < 1/10) →
        ((forensicAnalyze fileSize (some (imgC4 tags ela mode))).anomalies.map
            (fun a => (a.typ, a.severity)))
          = [("דחיסה כפולה", Severity.medium), ("מימדים", Severity.medium)]
        ∧ (forensicAnalyze fileSize (some (imgC4 tags ela mode))).confidence_score = 76/100 := by
  constructor
  · intro l
    unfold calculateConfidence
    by_cases hl : l.isEmpty
    · rw [if_pos hl, if_pos hl]
    · rw [if_neg hl, if_neg hl]
      dsimp only
      obtain ⟨n, hn⟩ := penaltySum_int l
      rw [hn, show (92 : ℚ)/100 - (n : ℚ)/100 = ((92 - n : ℤ) : ℚ)/10^2 from by push_cast; ring,
        pyRound_intDiv]
  · intro fileSize tags ela mode hexif hela hbpp
    have hcomp : analyzeCompression fileSize (imgC4 tags ela mode)
        = [{ typ := "דחיסה כפולה"
             description := "נמצאו סימנים לדחיסת JPEG כפולה (double compression). זה עלול להעיד על שמירה מחדש לאחר עריכה."
             severity := .medium
             location := some (50, 85) }] := by
      unfold analyzeCompression imgC4
      dsimp only
      rw [if_pos rfl]
      rw [if_pos (by norm_num : (30 : ℚ) > 25)]
      rw [if_pos (by norm_num : (1024 * 1024 : ℕ) > 0)]
      rw [if_neg (fun hc => hbpp hc.1)]
      rfl
    have hanoms : (forensicAnalyze fileSize (some (imgC4 tags ela mode))).anomalies
        = analyzeCompression fileSize (imgC4 tags ela mode)
          ++ analyzeDimensions (imgC4 tags ela mode) := by
      show (analyzeExif (imgC4 tags ela mode).exifTags ++ analyzeEla (imgC4 tags ela mode).ela
        ++ analyzeCompression fileSize (imgC4 tags ela mode)
        ++ analyzeDimensions (imgC4 tags ela mode)) = _
      rw [show (imgC4 tags ela mode).exifTags = tags from rfl,
        show (imgC4 tags ela mode).ela = ela from rfl,
        hexif, hela, List.nil_append, List.nil_append]
    have hdim : (analyzeDimensions (imgC4 tags ela mode)).map (fun a => (a.typ, a.severity))
        = [("מימדים", Severity.medium)] := by
      unfold analyzeDimensions imgC4
      dsimp only
      rw [if_pos (by decide)]
      rfl
    have hdimsev : (analyzeDimensions (imgC4 tags ela mode)).map (fun a => severityPenalty a.severity)
        = [8/100] := by
      unfold analyzeDimensions imgC4
      dsimp only
      rw [if_pos (by decide)]
      rfl
    constructor
    · rw [hanoms, List.map_append, hcomp, hdim]
      rfl
    · have hconf : (forensicAnalyze fileSize (some (imgC4 tags ela mode))).confidence_score
          = calculateConfidence ((forensicAnalyze fileSize (some (imgC4 tags ela mode))).anomalies) :=
        rfl
      rw [hconf, hanoms, hcomp]
      unfold calculateConfidence
      rw [if_neg (by simp)]
      dsimp only
      rw [List.map_append, hdimsev]
      norm_num [severityPenalty, pyRound, roundHalfEven]

/-- Witness for C4 with concrete EXIF tags, no ELA statistics, RGB
mode and a 200000-byte file. -/
theorem claim_C4_witness :
    ((forensicAnalyze 200000 (some (imgC4 [("Make", "X")] none "RGB"))).anomalies.map
        (fun a => (a.typ, a.severity)))
      = [("דחיסה כפולה", Severity.medium), ("מימדים", Severity.medium)]
    ∧ (forensicAnalyze 200000 (some (imgC4 [("Make", "X")] none "RGB"))).confidence_score = 76/100 :=
  claim_C4.2 200000 [("Make", "X")] none "RGB" rfl rfl (by norm_num)

/-- C5: the Signal Analyzer's embedding is a total function of its
(decoded-or-not) input — the `try/except` at the decode boundary is
the only fallible step — and on an undecodable image it returns the
degraded record: confidence 0.5 and exactly one medium anomaly of
type "format". -/
theorem claim_C5 (fileSize : ℕ) :
    forensicAnalyze fileSize none =
      { agent_type := "forensic_technical", confidence_score := 1/2,
        anomalies := [{ typ := "format",
                        description := "לא ניתן לפתוח את הקובץ כתמונה",
                        severity := .medium }] } := rfl

/-- Witness for C5 at a concrete size. -/
theorem claim_C5_witness :
    forensicAnalyze 12345 none =
      { agent_type := "forensic_technical", confidence_score := 1/2,
        anomalies := [{ typ := "format",
                        description := "לא ניתן לפתוח את הקובץ כתמונה",
                        severity := .medium }] } :=
  claim_C5 12345

/-- C6: the critique engine's confidence_adjustment equals the
arithmetic mean of the adjustments proposed by the modules that
proposed one (0 when none did) — the code's 3-decimal rounding is
exact on every attainable value — and the orchestrator's adjusted
score is always clamped into [0.05, 0.99]. -/
theorem claim_C6 :
    (∀ (now fileHash : String) (fs : ℕ) (dec : Option ImgView)
        (rs : List OpinionRecord) (cr : CrossRefResult) (log : List LogEntry),
      (redTeamChallenge now fileHash fs dec rs cr log).1.confidence_adjustment =
        (if ((checkFalsePositives rs fs dec).2.toList ++ (checkCrossConsistency rs).2.toList).isEmpty
         then 0
         else ((checkFalsePositives rs fs dec).2.toList ++ (checkCrossConsistency rs).2.toList).sum
            / (((checkFalsePositives rs fs dec).2.toList ++ (checkCrossConsistency rs).2.toList).length : ℚ)))
    ∧ ∀ (cr : CrossRefResult) (rt : RedTeamResult),
        1/20 ≤ (finalVerdict cr rt).confidence ∧ (finalVerdict cr rt).confidence ≤ 99/100 := by
  constructor
  · intro now fileHash fs dec rs cr log
    have hadj : (redTeamChallenge now fileHash fs dec rs cr log).1.confidence_adjustment
        = pyRound 3
          (if ((checkFalsePositives rs fs dec).2.toList ++ (checkCrossConsistency rs).2.toList).isEmpty
           then 0
           else ((checkFalsePositives rs fs dec).2.toList ++ (checkCrossConsistency rs).2.toList).sum
              / (((checkFalsePositives rs fs dec).2.toList ++ (checkCrossConsistency rs).2.toList).length : ℚ)) :=
      rfl
    rcases checkFalsePositives_adj rs fs dec with h1 | h1 <;>
      rcases checkCrossConsistency_adj rs with h2 | h2 <;>
      rw [hadj, h1, h2] <;>
      norm_num [Option.toList, pyRound, roundHalfEven]
  · intro cr rt
    have hc : (finalVerdict cr rt).confidence
        = pyRound 3 (max (5/100) (min (99/100) (cr.combined_score + rt.confidence_adjustment))) :=
      rfl
    have hlo : (5 : ℚ)/100 ≤ max (5/100) (min (99/100) (cr.combined_score + rt.confidence_adjustment)) :=
      le_max_left _ _
    have hhi : max (5/100) (min (99/100) (cr.combined_score + rt.confidence_adjustment)) ≤ 99/100 :=
      max_le (by norm_num) (min_le_left _ _)
    have hb := pyRound_bounds 3
      (max (5/100) (min (99/100) (cr.combined_score + rt.confidence_adjustment))) 50 990
      (by push_cast; linarith) (by push_cast; linarith)
    constructor
    · rw [hc]
      have hb1 := hb.1
      norm_num at hb1 ⊢
      linarith
    · rw [hc]
      have hb2 := hb.2
      norm_num at hb2 ⊢
      linarith

/-- Witness for C6 at a concrete empty run (no module proposes an
adjustment, so it is exactly 0) and its clamped final confidence. -/
theorem claim_C6_witness :
    (redTeamChallenge "t" "h" 0 none []
      { combined_score := 1/2, final_verdict := .inconclusive, reasoning := "" } []).1.confidence_adjustment = 0
    ∧ 1/20 ≤ (finalVerdict { combined_score := 1/2, final_verdict := .inconclusive, reasoning := "" }
        (redTeamChallenge "t" "h" 0 none []
          { combined_score := 1/2, final_verdict := .inconclusive, reasoning := "" } []).1).confidence := by
  constructor
  · rw [claim_C6.1 "t" "h" 0 none []
      { combined_score := 1/2, final_verdict := .inconclusive, reasoning := "" } []]
    rfl
  · exact (claim_C6.2 _ _).1

/-- C7: the threat level follows the spec thresholds (high when the
high-severity challenge count is ≥ 2 or challenges plus blind spots
total ≥ 5; medium when ≥ 1 high or total ≥ 3; else low) and, as a
function of that pair of counts, is monotone non-decreasing in both
components. -/
theorem claim_C7 :
    (∀ (ch : List Challenge) (bs : List BlindSpot),
      calcThreatLevel ch bs
        = threatOf (ch.countP (fun c => c.severity == Severity.high)) (ch.length + bs.length))
    ∧ ∀ ha ta hb tb : ℕ, ha ≤ hb → ta ≤ tb →
        threatRank (threatOf ha ta) ≤ threatRank (threatOf hb tb) := by
  constructor
  · intro ch bs
    rfl
  · intro ha ta hb tb hh ht
    unfold threatOf
    split_ifs <;> simp [threatRank] <;> omega

/-- Witness for C7: an empty critique is ranked by the same formula,
and increasing both counts does not decrease the level. -/
theorem claim_C7_witness :
    calcThreatLevel [] [] = threatOf 0 0
    ∧ threatRank (threatOf 0 2) ≤ threatRank (threatOf 1 3) :=
  ⟨claim_C7.1 [] [], claim_C7.2 0 2 1 3 (by norm_num) (by norm_num)⟩

/-- C8: on an empty opinion sequence the aggregator returns
combined_score 0.5, verdict inconclusive and the fixed reasoning text
noting that no findings were received, instead of failing. -/
theorem claim_C8 :
    crossRefAnalyze [] =
      { combined_score := 1/2, final_verdict := .inconclusive,
        reasoning := "לא התקבלו ממצאים מסוכנים.", anomaly_summary := none } := rfl

/-- C9: whenever every opinion confidence lies in [0, 1] the combined
score lies in [0, 1], and a zero total weight never reaches the
division — the aggregator falls back to 0.5. -/
theorem claim_C9 (rs : List OpinionRecord)
    (h : ∀ r ∈ rs, 0 ≤ r.confidence_score ∧ r.confidence_score ≤ 1) :
    (0 ≤ (crossRefAnalyze rs).combined_score ∧ (crossRefAnalyze rs).combined_score ≤ 1)
    ∧ (totalWeight rs = 0 → (crossRefAnalyze rs).combined_score = 1/2) := by
  by_cases hrs : rs.isEmpty
  · have he : rs = [] := by
      cases rs
      · rfl
      · simp at hrs
    subst he
    refine ⟨⟨by norm_num [crossRefAnalyze], by norm_num [crossRefAnalyze]⟩, fun _ => by norm_num [crossRefAnalyze]⟩
  · have hcs : (crossRefAnalyze rs).combined_score = combinedScore rs := by
      unfold crossRefAnalyze
      rw [if_neg hrs]
    have htw := totalWeight_pos rs hrs
    have hws0 : 0 ≤ weightedSum rs := weightedSum_nonneg rs (fun r hr => (h r hr).1)
    have hws1 : weightedSum rs ≤ totalWeight rs := weightedSum_le_totalWeight rs (fun r hr => (h r hr).2)
    have hdiv0 : 0 ≤ weightedSum rs / totalWeight rs := div_nonneg hws0 (le_of_lt htw)
    have hdiv1 : weightedSum rs / totalWeight rs ≤ 1 := by
      rw [div_le_one htw]
      exact hws1
    have hb := pyRound_bounds 3 (weightedSum rs / totalWeight rs) 0 1000
      (by push_cast; linarith) (by push_cast; linarith)
    have hcv : combinedScore rs = pyRound 3 (weightedSum rs / totalWeight rs) := by
      unfold combinedScore
      rw [if_pos htw]
    refine ⟨⟨?_, ?_⟩, fun h0 => absurd h0 (ne_of_gt htw)⟩
    · rw [hcs, hcv]
      have hb1 := hb.1
      norm_num at hb1 ⊢
      linarith
    · rw [hcs, hcv]
      have hb2 := hb.2
      norm_num at hb2 ⊢
      linarith

/-- Witness for C9 at a one-opinion set with confidence 0.5. -/
theorem claim_C9_witness :
    0 ≤ (crossRefAnalyze
        [{ agent_type := "physical", confidence_score := 1/2, anomalies := [] }]).combined_score
    ∧ (crossRefAnalyze
        [{ agent_type := "physical", confidence_score := 1/2, anomalies := [] }]).combined_score ≤ 1 :=
  (claim_C9 [{ agent_type := "physical", confidence_score := 1/2, anomalies := [] }]
    (by
      intro r hr
      rw [List.mem_singleton] at hr
      subst hr
      norm_num)).1

/-- C10: every completed critique run extends the learning log by
exactly one appended entry — existing entries are untouched — and the
reported learning_log_size is the length of the log after that
append. -/
theorem claim_C10 (now fileHash : String) (fs : ℕ) (dec : Option ImgView)
    (rs : List OpinionRecord) (cr : CrossRefResult) (log : List LogEntry) :
    ∃ e : LogEntry,
      (redTeamChallenge now fileHash fs dec rs cr log).2 = log ++ [e]
      ∧ (redTeamChallenge now fileHash fs dec rs cr log).1.learning_log_size
          = ((redTeamChallenge now fileHash fs dec rs cr log).2).length
      ∧ (redTeamChallenge now fileHash fs dec rs cr log).1.learning_log_size = log.length + 1 := by
  refine ⟨_, rfl, rfl, ?_⟩
  show (log ++ [_]).length = log.length + 1
  simp

/-- Witness for C10 at a concrete run starting from an empty log. -/
theorem claim_C10_witness :
    (redTeamChallenge "t" "h" 0 none []
      { combined_score := 1/2, final_verdict := .inconclusive, reasoning := "" } []).1.learning_log_size = 1 := by
  obtain ⟨e, h1, h2, h3⟩ := claim_C10 "t" "h" 0 none []
    { combined_score := 1/2, final_verdict := .inconclusive, reasoning := "" } []
  simpa using h3

end VerifyAi
